import Mathlib

/-!
Shallow embedding of the `sntpc` SNTP client core (crate `sntpc`, files
`src/lib.rs` and `src/types.rs`) used to settle the specification claims.

Modelling conventions:
* Rust `u8`/`u32`/`u64`/`u128` values are `Nat`s; wrapping operations carry an
  explicit `% 2 ^ w`.  `i8`/`i64` values are `Int`s; Rust `as` casts and
  wrapping signed arithmetic are modelled with explicit range adjustments.
* Rust signed integer division truncates toward zero, so it is `Int.tdiv`.
* `u32::to_be` / `u64::to_be` (the `ntohl` implementations) byte-swap on a
  little-endian host, the target this crate is built for in its tests; they
  are modelled as the byte swaps `swap32` / `swap64`.
* A `RawNtpPacket` (a `[u8; 48]`) is a 48-element `List Nat` of byte values.
* Fallible validation (`process_response`) returns `Except Error NtpResult`.
-/

namespace Sntpc

/-- SNTP mode value bit mask (`types.rs`). -/
def MODE_MASK : Nat := 0b00000111

/-- SNTP mode bit mask shift value (`types.rs`). -/
def MODE_SHIFT : Nat := 0

/-- SNTP version value bit mask (`types.rs`). -/
def VERSION_MASK : Nat := 0b00111000

/-- SNTP version bit mask shift value (`types.rs`). -/
def VERSION_SHIFT : Nat := 3

/-- SNTP leap indicator bit mask (`types.rs`). -/
def LI_MASK : Nat := 0b11000000

/-- SNTP leap indicator shift value (`types.rs`). -/
def LI_SHIFT : Nat := 6

/-- Picoseconds in a second (`types.rs`). -/
def PSEC_IN_SEC : Nat := 1000000000000

/-- Nanoseconds in a second (`types.rs`). -/
def NSEC_IN_SEC : Nat := 1000000000

/-- Microseconds in a second (`types.rs`). -/
def USEC_IN_SEC : Nat := 1000000

/-- Milliseconds in a second (`types.rs`). -/
def MSEC_IN_SEC : Nat := 1000

/-- Mask selecting the seconds half of a 64-bit NTP timestamp (`types.rs`). -/
def SECONDS_MASK : Nat := 0xffffffff00000000

/-- Mask selecting the fraction half of a 64-bit NTP timestamp (`types.rs`). -/
def SECONDS_FRAC_MASK : Nat := 0xffffffff

/-- First day UNIX era offset, `NtpPacket::NTP_TIMESTAMP_DELTA` (`types.rs`). -/
def NTP_TIMESTAMP_DELTA : Nat := 2208988800

/-- Rust `u32::MAX`, the divisor used throughout the fraction conversions. -/
def U32_MAX : Nat := 4294967295

/-- Rust `u64::wrapping_sub`. -/
def wrappingSub64 (a b : Nat) : Nat := (a + (2 ^ 64 - b % 2 ^ 64)) % 2 ^ 64

/-- Rust `as i64` reinterpretation of a `u64` bit pattern. -/
def toI64 (x : Nat) : Int :=
  if x % 2 ^ 64 < 2 ^ 63 then (x % 2 ^ 64 : Nat) else (x % 2 ^ 64 : Nat) - 2 ^ 64

/-- Wrapping of an unbounded integer into the `i64` range (two's complement). -/
def wrapI64 (x : Int) : Int := (x + 2 ^ 63) % 2 ^ 64 - 2 ^ 63

/-- Rust `i64::saturating_add`. -/
def i64SaturatingAdd (a b : Int) : Int :=
  max (-(2 ^ 63)) (min (2 ^ 63 - 1) (a + b))

/-- Rust `as u32` truncation of an `i64` value. -/
def i64ToU32 (x : Int) : Nat := (x % 2 ^ 32).toNat

/-- Rust `as u8` reinterpretation of an `i8` value. -/
def i8ToU8 (x : Int) : Nat := (x % 2 ^ 8).toNat

/-- Rust `as i8` reinterpretation of a `u8` value. -/
def u8ToI8 (b : Nat) : Int :=
  if b % 2 ^ 8 < 2 ^ 7 then (b % 2 ^ 8 : Nat) else (b % 2 ^ 8 : Nat) - 2 ^ 8

/-- Delay units supported by the crate (`types.rs`, enum `Units`). -/
inductive Units where
  | Milliseconds
  | Microseconds
deriving DecidableEq, Repr

/-- Errors of the SNTP client (`types.rs`, enum `Error`). -/
inductive Error where
  | IncorrectOriginTimestamp
  | IncorrectMode
  | IncorrectLeapIndicator
  | IncorrectResponseVersion
  | IncorrectStratumHeaders
  | IncorrectPayload
  | Network
  | AddressResolve
  | ResponseAddressMismatch
deriving DecidableEq, Repr

/-- SNTP request result (`types.rs`, struct `NtpResult`). -/
structure NtpResult where
  seconds : Nat
  seconds_fraction : Nat
  roundtrip : Nat
  offset : Int
  stratum : Nat
  precision : Int
deriving DecidableEq, Repr

/-- Constructor `NtpResult::new` (`types.rs`): normalizes a full fraction into
the seconds field; the `u32` addition wraps modulo `2 ^ 32`. -/
def NtpResult.new (seconds seconds_fraction roundtrip : Nat) (offset : Int)
    (stratum : Nat) (precision : Int) : NtpResult :=
  { seconds := (seconds + seconds_fraction / U32_MAX) % 2 ^ 32
    seconds_fraction := seconds_fraction % U32_MAX
    roundtrip := roundtrip
    offset := offset
    stratum := stratum
    precision := precision }

/-- Split timestamp (`types.rs`, struct `NtpTimestamp`). -/
structure NtpTimestamp where
  seconds : Int
  seconds_fraction : Int
deriving DecidableEq, Repr

/-- Conversion `From<u64> for NtpTimestamp` (`types.rs`): the `u64`
subtraction of the era offset wraps, then the halves are cast `as i64`. -/
def NtpTimestamp.ofU64 (v : Nat) : NtpTimestamp :=
  { seconds := toI64 (wrappingSub64 ((v &&& SECONDS_MASK) >>> 32) NTP_TIMESTAMP_DELTA)
    seconds_fraction := toI64 (v &&& SECONDS_FRAC_MASK) }

/-- Helper `convert_delays` (`lib.rs`): `sec * units + fraction * units /
u32::MAX` in wrapping `u64` arithmetic. -/
def convert_delays (sec fraction units : Nat) : Nat :=
  (sec * units % 2 ^ 64 + fraction * units % 2 ^ 64 / U32_MAX) % 2 ^ 64

/-- Round-trip delay `roundtrip_calculate` (`lib.rs`): the inner subtractions
wrap, the outer one saturates at zero (`Nat` subtraction). -/
def roundtrip_calculate (t1 t2 t3 t4 : Nat) (units : Units) : Nat :=
  let delta := wrappingSub64 t4 t1 - wrappingSub64 t3 t2
  let delta_sec := (delta &&& SECONDS_MASK) >>> 32
  let delta_sec_fraction := delta &&& SECONDS_FRAC_MASK
  match units with
  | Units.Milliseconds => convert_delays delta_sec delta_sec_fraction MSEC_IN_SEC
  | Units.Microseconds => convert_delays delta_sec delta_sec_fraction USEC_IN_SEC

/-- Clock offset `offset_calculate` (`lib.rs`): wrapping subtractions are cast
`as i64`, halved with truncating division, added with saturation; the unsigned
magnitude is converted and multiplied back by the sign, wrapping as `i64`. -/
def offset_calculate (t1 t2 t3 t4 : Nat) (units : Units) : Int :=
  let theta := i64SaturatingAdd (Int.tdiv (toI64 (wrappingSub64 t2 t1)) 2)
    (Int.tdiv (toI64 (wrappingSub64 t3 t4)) 2)
  let theta_sec := (theta.natAbs &&& SECONDS_MASK) >>> 32
  let theta_sec_fraction := theta.natAbs &&& SECONDS_FRAC_MASK
  match units with
  | Units.Milliseconds =>
      wrapI64 (toI64 (convert_delays theta_sec theta_sec_fraction MSEC_IN_SEC) * theta.sign)
  | Units.Microseconds =>
      wrapI64 (toI64 (convert_delays theta_sec theta_sec_fraction USEC_IN_SEC) * theta.sign)

/-- Local timestamp builder `get_ntp_timestamp` (`lib.rs`), as a function of
the generator's seconds and sub-second microseconds. -/
def get_ntp_timestamp (timestamp_sec timestamp_subsec_micros : Nat) : Nat :=
  ((timestamp_sec + NTP_TIMESTAMP_DELTA) % 2 ^ 64 * 2 ^ 32 % 2 ^ 64
    + timestamp_subsec_micros * U32_MAX % 2 ^ 64 / USEC_IN_SEC) % 2 ^ 64

/-- Conversion `fraction_to_milliseconds` (`lib.rs`). -/
def fraction_to_milliseconds (sec_fraction : Nat) : Nat :=
  sec_fraction * MSEC_IN_SEC % 2 ^ 64 / U32_MAX % 2 ^ 32

/-- Conversion `fraction_to_microseconds` (`lib.rs`). -/
def fraction_to_microseconds (sec_fraction : Nat) : Nat :=
  sec_fraction * USEC_IN_SEC % 2 ^ 64 / U32_MAX % 2 ^ 32

/-- Conversion `fraction_to_nanoseconds` (`lib.rs`). -/
def fraction_to_nanoseconds (sec_fraction : Nat) : Nat :=
  sec_fraction * NSEC_IN_SEC % 2 ^ 64 / U32_MAX % 2 ^ 32

/-- Conversion `fraction_to_picoseconds` (`lib.rs`): 128-bit intermediate,
truncated `as u64`. -/
def fraction_to_picoseconds (sec_fraction : Nat) : Nat :=
  sec_fraction * PSEC_IN_SEC % 2 ^ 128 / U32_MAX % 2 ^ 64

/-- Bit-field extractor `shifter` (`lib.rs`). -/
def shifter (val mask shift : Nat) : Nat := (val &&& mask) >>> shift

/-- In-memory NTP packet (`types.rs`, struct `NtpPacket`). -/
structure NtpPacket where
  li_vn_mode : Nat
  stratum : Nat
  poll : Int
  precision : Int
  root_delay : Nat
  root_dispersion : Nat
  ref_id : Nat
  ref_timestamp : Nat
  origin_timestamp : Nat
  recv_timestamp : Nat
  tx_timestamp : Nat
deriving DecidableEq, Repr

/-- Range invariants tying a `NtpPacket` to its Rust field types. -/
def NtpPacket.WF (p : NtpPacket) : Prop :=
  p.li_vn_mode < 2 ^ 8 ∧ p.stratum < 2 ^ 8 ∧
  -(2 ^ 7) ≤ p.poll ∧ p.poll < 2 ^ 7 ∧
  -(2 ^ 7) ≤ p.precision ∧ p.precision < 2 ^ 7 ∧
  p.root_delay < 2 ^ 32 ∧ p.root_dispersion < 2 ^ 32 ∧ p.ref_id < 2 ^ 32 ∧
  p.ref_timestamp < 2 ^ 64 ∧ p.origin_timestamp < 2 ^ 64 ∧
  p.recv_timestamp < 2 ^ 64 ∧ p.tx_timestamp < 2 ^ 64

instance (p : NtpPacket) : Decidable p.WF := by
  unfold NtpPacket.WF; infer_instance

/-- Big-endian byte encoding of a `u32` (`u32::to_be_bytes`). -/
def beBytes32 (x : Nat) : List Nat :=
  [x / 2 ^ 24 % 256, x / 2 ^ 16 % 256, x / 2 ^ 8 % 256, x % 256]

/-- Big-endian byte encoding of a `u64` (`u64::to_be_bytes`). -/
def beBytes64 (x : Nat) : List Nat :=
  [x / 2 ^ 56 % 256, x / 2 ^ 48 % 256, x / 2 ^ 40 % 256, x / 2 ^ 32 % 256,
   x / 2 ^ 24 % 256, x / 2 ^ 16 % 256, x / 2 ^ 8 % 256, x % 256]

/-- Serialization `From<&NtpPacket> for RawNtpPacket` (`types.rs`): each field
is written big-endian at its fixed offset in the 48-byte buffer. -/
def rawFromPacket (p : NtpPacket) : List Nat :=
  [p.li_vn_mode, p.stratum, i8ToU8 p.poll, i8ToU8 p.precision]
    ++ beBytes32 p.root_delay ++ beBytes32 p.root_dispersion
    ++ beBytes32 p.ref_id ++ beBytes64 p.ref_timestamp
    ++ beBytes64 p.origin_timestamp ++ beBytes64 p.recv_timestamp
    ++ beBytes64 p.tx_timestamp

/-- Deserialization `From<RawNtpPacket> for NtpPacket` (`types.rs`): bytes are
read at fixed offsets with `from_le_bytes`; `poll` and `precision` are
reinterpreted `as i8`.  A buffer that is not exactly 48 bytes has no Rust
counterpart; the catch-all returns the zero packet. -/
def packetFromRaw : List Nat → NtpPacket
  | b0 :: b1 :: b2 :: b3 :: b4 :: b5 :: b6 :: b7 :: b8 :: b9 :: b10 :: b11 ::
    b12 :: b13 :: b14 :: b15 :: b16 :: b17 :: b18 :: b19 :: b20 :: b21 :: b22 ::
    b23 :: b24 :: b25 :: b26 :: b27 :: b28 :: b29 :: b30 :: b31 :: b32 :: b33 ::
    b34 :: b35 :: b36 :: b37 :: b38 :: b39 :: b40 :: b41 :: b42 :: b43 :: b44 ::
    b45 :: b46 :: b47 :: [] =>
    { li_vn_mode := b0
      stratum := b1
      poll := u8ToI8 b2
      precision := u8ToI8 b3
      root_delay := b4 + b5 * 2 ^ 8 + b6 * 2 ^ 16 + b7 * 2 ^ 24
      root_dispersion := b8 + b9 * 2 ^ 8 + b10 * 2 ^ 16 + b11 * 2 ^ 24
      ref_id := b12 + b13 * 2 ^ 8 + b14 * 2 ^ 16 + b15 * 2 ^ 24
      ref_timestamp := b16 + b17 * 2 ^ 8 + b18 * 2 ^ 16 + b19 * 2 ^ 24
        + b20 * 2 ^ 32 + b21 * 2 ^ 40 + b22 * 2 ^ 48 + b23 * 2 ^ 56
      origin_timestamp := b24 + b25 * 2 ^ 8 + b26 * 2 ^ 16 + b27 * 2 ^ 24
        + b28 * 2 ^ 32 + b29 * 2 ^ 40 + b30 * 2 ^ 48 + b31 * 2 ^ 56
      recv_timestamp := b32 + b33 * 2 ^ 8 + b34 * 2 ^ 16 + b35 * 2 ^ 24
        + b36 * 2 ^ 32 + b37 * 2 ^ 40 + b38 * 2 ^ 48 + b39 * 2 ^ 56
      tx_timestamp := b40 + b41 * 2 ^ 8 + b42 * 2 ^ 16 + b43 * 2 ^ 24
        + b44 * 2 ^ 32 + b45 * 2 ^ 40 + b46 * 2 ^ 48 + b47 * 2 ^ 56 }
  | _ =>
    { li_vn_mode := 0, stratum := 0, poll := 0, precision := 0, root_delay := 0
      root_dispersion := 0, ref_id := 0, ref_timestamp := 0, origin_timestamp := 0
      recv_timestamp := 0, tx_timestamp := 0 }

/-- Byte swap of a `u32`, the effect of `u32::to_be` on a little-endian host
(`NtpNum::ntohl` for `u32` in `types.rs`). -/
def swap32 (x : Nat) : Nat :=
  x % 256 * 2 ^ 24 + x / 2 ^ 8 % 256 * 2 ^ 16 + x / 2 ^ 16 % 256 * 2 ^ 8
    + x / 2 ^ 24 % 256

/-- Byte swap of a `u64`, the effect of `u64::to_be` on a little-endian host
(`NtpNum::ntohl` for `u64` in `types.rs`). -/
def swap64 (x : Nat) : Nat :=
  x % 256 * 2 ^ 56 + x / 2 ^ 8 % 256 * 2 ^ 48 + x / 2 ^ 16 % 256 * 2 ^ 40
    + x / 2 ^ 24 % 256 * 2 ^ 32 + x / 2 ^ 32 % 256 * 2 ^ 24
    + x / 2 ^ 40 % 256 * 2 ^ 16 + x / 2 ^ 48 % 256 * 2 ^ 8 + x / 2 ^ 56 % 256

/-- Conversion `convert_from_network` (`lib.rs`): applies `ntohl` to every
multi-byte field of the freshly decoded packet. -/
def convert_from_network (p : NtpPacket) : NtpPacket :=
  { p with
    root_delay := swap32 p.root_delay
    root_dispersion := swap32 p.root_dispersion
    ref_id := swap32 p.ref_id
    ref_timestamp := swap64 p.ref_timestamp
    origin_timestamp := swap64 p.origin_timestamp
    recv_timestamp := swap64 p.recv_timestamp
    tx_timestamp := swap64 p.tx_timestamp }

/-- Request state kept between send and receive (`types.rs`,
struct `SendRequestResult`). -/
structure SendRequestResult where
  originate_timestamp : Nat
  version : Nat
deriving DecidableEq, Repr

/-- Response validation and result assembly `process_response` (`lib.rs`).
`SNTP_UNICAST = 4`, `SNTP_BROADCAST = 5` and `LI_MAX_VALUE = 3` are the local
constants of the Rust function. -/
def process_response (send_req_result : SendRequestResult) (resp : List Nat)
    (recv_timestamp : Nat) : Except Error NtpResult :=
  let packet := convert_from_network (packetFromRaw resp)
  if send_req_result.originate_timestamp ≠ packet.origin_timestamp then
    Except.error Error.IncorrectOriginTimestamp
  else
    let mode := shifter packet.li_vn_mode MODE_MASK MODE_SHIFT
    let li := shifter packet.li_vn_mode LI_MASK LI_SHIFT
    let resp_version := shifter packet.li_vn_mode VERSION_MASK VERSION_SHIFT
    let req_version := shifter send_req_result.version VERSION_MASK VERSION_SHIFT
    if mode ≠ 4 ∧ mode ≠ 5 then Except.error Error.IncorrectMode
    else if li > 3 then Except.error Error.IncorrectLeapIndicator
    else if req_version ≠ resp_version then Except.error Error.IncorrectResponseVersion
    else if packet.stratum = 0 then Except.error Error.IncorrectStratumHeaders
    else
      let t1 := packet.origin_timestamp
      let t2 := packet.recv_timestamp
      let t3 := packet.tx_timestamp
      let t4 := recv_timestamp
      let roundtrip := roundtrip_calculate t1 t2 t3 t4 Units.Microseconds
      let offset := offset_calculate t1 t2 t3 t4 Units.Microseconds
      let timestamp := NtpTimestamp.ofU64 packet.tx_timestamp
      Except.ok (NtpResult.new (i64ToU32 timestamp.seconds)
        (i64ToU32 timestamp.seconds_fraction) roundtrip offset
        packet.stratum packet.precision)

/-- Receive-side entry `sntp_process_response` (`lib.rs`): source address and
payload size checks before delegating to `process_response`.  Socket addresses
are opaque and modelled as `Nat` identifiers; `response` is the received byte
count compared against `size_of::<NtpPacket>() = 48`. -/
def sntp_process_response (dest src response : Nat)
    (send_req_result : SendRequestResult) (resp : List Nat)
    (recv_timestamp : Nat) : Except Error NtpResult :=
  if dest ≠ src then Except.error Error.ResponseAddressMismatch
  else if response ≠ 48 then Except.error Error.IncorrectPayload
  else process_response send_req_result resp recv_timestamp

/-- Ordered validation checks of the spec, paired with the error each one must
raise (claim C1); `true` marks a failing check. -/
def validationChecks (dest src response : Nat)
    (send_req_result : SendRequestResult) (resp : List Nat) : List (Bool × Error) :=
  let packet := convert_from_network (packetFromRaw resp)
  let mode := shifter packet.li_vn_mode MODE_MASK MODE_SHIFT
  let li := shifter packet.li_vn_mode LI_MASK LI_SHIFT
  let resp_version := shifter packet.li_vn_mode VERSION_MASK VERSION_SHIFT
  let req_version := shifter send_req_result.version VERSION_MASK VERSION_SHIFT
  [(decide (dest ≠ src), Error.ResponseAddressMismatch),
   (decide (response ≠ 48), Error.IncorrectPayload),
   (decide (packet.origin_timestamp ≠ send_req_result.originate_timestamp),
     Error.IncorrectOriginTimestamp),
   (decide (¬ (mode = 4 ∨ mode = 5)), Error.IncorrectMode),
   (decide (li > 3), Error.IncorrectLeapIndicator),
   (decide (resp_version ≠ req_version), Error.IncorrectResponseVersion),
   (decide (packet.stratum = 0), Error.IncorrectStratumHeaders)]

/-- Error of the first failing check of an ordered check list, if any. -/
def firstFailedCheck (checks : List (Bool × Error)) : Option Error :=
  (checks.find? (fun c => c.1)).map (fun c => c.2)

/-- Round-trip delay formula exactly as the claim states it (claim C4), with
the fraction part divided by `2 ^ 32`. -/
def claimRoundtripFormula (t1 t2 t3 t4 : Nat) : Nat :=
  let delta := wrappingSub64 t4 t1 - wrappingSub64 t3 t2
  (delta >>> 32) * 1000000 + (delta &&& 0xffffffff) * 1000000 / 2 ^ 32

/-- Local-stamp formula exactly as the spec states it (claim C7):
`((sec_unix + 2208988800) <<< 32) + subsec_us * 2 ^ 32 / 1000000`, evaluated
modulo `2 ^ 64`. -/
def specToNtp (sec_unix subsec_us : Nat) : Nat :=
  ((sec_unix + 2208988800) % 2 ^ 64 * 2 ^ 32 % 2 ^ 64
    + subsec_us * 2 ^ 32 / 1000000) % 2 ^ 64

/-- Overflow-checked `convert_delays` (claim C8): `none` whenever a `u64`
multiplication or addition would exceed its type (the Rust debug-mode panic
conditions). -/
def convert_delays_checked (sec fraction units : Nat) : Option Nat :=
  if sec * units < 2 ^ 64 then
    if fraction * units < 2 ^ 64 then
      if sec * units + fraction * units / U32_MAX < 2 ^ 64 then
        some (sec * units + fraction * units / U32_MAX)
      else none
    else none
  else none

/-- Overflow-checked `roundtrip_calculate` (claim C8); the wrapping and
saturating subtractions are panic-free by definition. -/
def roundtrip_calculate_checked (t1 t2 t3 t4 : Nat) (units : Units) : Option Nat :=
  let delta := wrappingSub64 t4 t1 - wrappingSub64 t3 t2
  let delta_sec := (delta &&& SECONDS_MASK) >>> 32
  let delta_sec_fraction := delta &&& SECONDS_FRAC_MASK
  match units with
  | Units.Milliseconds => convert_delays_checked delta_sec delta_sec_fraction MSEC_IN_SEC
  | Units.Microseconds => convert_delays_checked delta_sec delta_sec_fraction USEC_IN_SEC

/-- Overflow-checked `offset_calculate` (claim C8): `none` on an `i64`
division overflow, on a `u64` overflow inside `convert_delays`, on a
value-changing `as i64` cast of the converted delay, or on an `i64` overflow
of the final multiplication by the sign. -/
def offset_calculate_checked (t1 t2 t3 t4 : Nat) (units : Units) : Option Int :=
  let a := toI64 (wrappingSub64 t2 t1)
  let b := toI64 (wrappingSub64 t3 t4)
  if (2 : Int) = 0 ∨ (a = -(2 ^ 63) ∧ (2 : Int) = -1) then none
  else if (2 : Int) = 0 ∨ (b = -(2 ^ 63) ∧ (2 : Int) = -1) then none
  else
    let theta := i64SaturatingAdd (Int.tdiv a 2) (Int.tdiv b 2)
    let theta_sec := (theta.natAbs &&& SECONDS_MASK) >>> 32
    let theta_sec_fraction := theta.natAbs &&& SECONDS_FRAC_MASK
    let u := match units with
      | Units.Milliseconds => MSEC_IN_SEC
      | Units.Microseconds => USEC_IN_SEC
    match convert_delays_checked theta_sec theta_sec_fraction u with
    | none => none
    | some d =>
      if d < 2 ^ 63 then
        if -(2 ^ 63) ≤ toI64 d * theta.sign ∧ toI64 d * theta.sign < 2 ^ 63 then
          some (toI64 d * theta.sign)
        else none
      else none

theorem land_frac (d : Nat) : d &&& SECONDS_FRAC_MASK = d % 2 ^ 32 := by
  have h := Nat.and_pow_two_sub_one_eq_mod d 32
  unfold SECONDS_FRAC_MASK
  norm_num at h ⊢
  exact h

theorem land_high (d : Nat) (h : d < 2 ^ 64) :
    d &&& SECONDS_MASK = 2 ^ 32 * (d / 2 ^ 32) := by
  have hm : SECONDS_MASK = (2 ^ 32 - 1) <<< 32 := by decide
  have h2 : 2 ^ 32 * (d / 2 ^ 32) = (d >>> 32) <<< 32 := by
    rw [Nat.shiftRight_eq_div_pow, Nat.shiftLeft_eq, Nat.mul_comm]
  rw [hm, h2]
  apply Nat.eq_of_testBit_eq
  intro i
  rw [Nat.testBit_and, Nat.testBit_shiftLeft, Nat.testBit_shiftLeft,
    Nat.testBit_two_pow_sub_one, Nat.testBit_shiftRight]
  rcases Nat.lt_or_ge i 32 with h32 | h32
  · simp [Nat.not_le.2 h32]
  · rcases Nat.lt_or_ge i 64 with h64 | h64
    · have hi : 32 + (i - 32) = i := by omega
      simp [h32, hi, Nat.lt_of_lt_of_le h64 (le_refl 64), show i - 32 < 32 by omega]
    · have hd : d.testBit i = false :=
        Nat.testBit_lt_two_pow (lt_of_lt_of_le h (Nat.pow_le_pow_right (by norm_num) h64))
      have hi : 32 + (i - 32) = i := by omega
      simp [h32, hi, hd]

theorem land_high_shift (d : Nat) (h : d < 2 ^ 64) :
    (d &&& SECONDS_MASK) >>> 32 = d / 2 ^ 32 := by
  rw [land_high d h, Nat.shiftRight_eq_div_pow]
  exact Nat.mul_div_cancel_left _ (by norm_num)

theorem wrappingSub64_lt (a b : Nat) : wrappingSub64 a b < 2 ^ 64 := by
  unfold wrappingSub64
  exact Nat.mod_lt _ (by norm_num)

theorem swap32_bytes (a b c d : Nat) (ha : a < 256) (hb : b < 256) (hc : c < 256)
    (hd : d < 256) :
    swap32 (a + b * 2 ^ 8 + c * 2 ^ 16 + d * 2 ^ 24)
      = a * 2 ^ 24 + b * 2 ^ 16 + c * 2 ^ 8 + d := by
  unfold swap32
  omega

theorem decode32 (x : Nat) (h : x < 2 ^ 32) :
    swap32 (x / 2 ^ 24 % 256 + x / 2 ^ 16 % 256 * 2 ^ 8 + x / 2 ^ 8 % 256 * 2 ^ 16
      + x % 256 * 2 ^ 24) = x := by
  rw [swap32_bytes (x / 2 ^ 24 % 256) (x / 2 ^ 16 % 256) (x / 2 ^ 8 % 256) (x % 256)
    (Nat.mod_lt _ (by norm_num)) (Nat.mod_lt _ (by norm_num))
    (Nat.mod_lt _ (by norm_num)) (Nat.mod_lt _ (by norm_num))]
  omega

theorem swap64_bytes (a b c d e f g h : Nat) (ha : a < 256) (hb : b < 256)
    (hc : c < 256) (hd : d < 256) (he : e < 256) (hf : f < 256) (hg : g < 256)
    (hh : h < 256) :
    swap64 (a + b * 2 ^ 8 + c * 2 ^ 16 + d * 2 ^ 24 + e * 2 ^ 32 + f * 2 ^ 40
        + g * 2 ^ 48 + h * 2 ^ 56)
      = a * 2 ^ 56 + b * 2 ^ 48 + c * 2 ^ 40 + d * 2 ^ 32 + e * 2 ^ 24 + f * 2 ^ 16
        + g * 2 ^ 8 + h := by
  unfold swap64
  omega

theorem decode64 (x : Nat) (h : x < 2 ^ 64) :
    swap64 (x / 2 ^ 56 % 256 + x / 2 ^ 48 % 256 * 2 ^ 8 + x / 2 ^ 40 % 256 * 2 ^ 16
      + x / 2 ^ 32 % 256 * 2 ^ 24 + x / 2 ^ 24 % 256 * 2 ^ 32 + x / 2 ^ 16 % 256 * 2 ^ 40
      + x / 2 ^ 8 % 256 * 2 ^ 48 + x % 256 * 2 ^ 56) = x := by
  rw [swap64_bytes (x / 2 ^ 56 % 256) (x / 2 ^ 48 % 256) (x / 2 ^ 40 % 256)
    (x / 2 ^ 32 % 256) (x / 2 ^ 24 % 256) (x / 2 ^ 16 % 256) (x / 2 ^ 8 % 256) (x % 256)
    (Nat.mod_lt _ (by norm_num)) (Nat.mod_lt _ (by norm_num))
    (Nat.mod_lt _ (by norm_num)) (Nat.mod_lt _ (by norm_num))
    (Nat.mod_lt _ (by norm_num)) (Nat.mod_lt _ (by norm_num))
    (Nat.mod_lt _ (by norm_num)) (Nat.mod_lt _ (by norm_num))]
  omega

theorem u8ToI8_i8ToU8 (x : Int) (h1 : -(2 ^ 7) ≤ x) (h2 : x < 2 ^ 7) :
    u8ToI8 (i8ToU8 x) = x := by
  unfold u8ToI8 i8ToU8
  split <;> omega

/-- C2: for every packet `p` within the Rust field ranges, decoding the
48-byte encoding of `p` — `NtpPacket::from(RawNtpPacket::from(&p))` followed
by `convert_from_network` — yields `p` field by field. -/
theorem codec_round_trip (p : NtpPacket) (h : p.WF) :
    convert_from_network (packetFromRaw (rawFromPacket p)) = p := by
  cases p with
  | mk lvm st po pr rd rdp rid rts ots rcts txts =>
    obtain ⟨h1, h2, h3, h4, h5, h6, h7, h8, h9, h10, h11, h12, h13⟩ := h
    simp only [rawFromPacket, beBytes32, beBytes64, List.cons_append,
      List.nil_append]
    simp only [packetFromRaw, convert_from_network, NtpPacket.mk.injEq]
    exact ⟨trivial, trivial, u8ToI8_i8ToU8 po h3 h4, u8ToI8_i8ToU8 pr h5 h6,
      decode32 rd h7, decode32 rdp h8, decode32 rid h9, decode64 rts h10,
      decode64 ots h11, decode64 rcts h12, decode64 txts h13⟩

/-- Witness for C2 at a concrete packet. -/
theorem codec_round_trip_witness :
    NtpPacket.WF ⟨0x23, 2, -3, -18, 5, 4096, 0xdeadbeef, 0x123456789abcdef0,
      11, 2 ^ 64 - 1, 13⟩ ∧
    convert_from_network (packetFromRaw (rawFromPacket
        ⟨0x23, 2, -3, -18, 5, 4096, 0xdeadbeef, 0x123456789abcdef0, 11,
          2 ^ 64 - 1, 13⟩))
      = ⟨0x23, 2, -3, -18, 5, 4096, 0xdeadbeef, 0x123456789abcdef0, 11,
          2 ^ 64 - 1, 13⟩ :=
  ⟨by decide, codec_round_trip _ (by decide)⟩

/-- C3: `offset_calculate` in microseconds returns exactly the expected value
on each of the spec's four end-to-end seed rows. -/
theorem offset_calculate_seed_rows :
    offset_calculate 16893142954672769962 16893142959053084959
        16893142959053112968 16893142954793063406 Units.Microseconds = 1005870 ∧
    offset_calculate 16893362966131575843 16893362966715800791
        16893362966715869584 16893362967084349913 Units.Microseconds = 25115 ∧
    offset_calculate 16893399716399327198 16893399716453045029
        16893399716453098083 16893399716961924964 Units.Microseconds = -52981 ∧
    offset_calculate 9487534663484046772 16882120099581835046
        16882120099583884144 9487534663651464597 Units.Microseconds
      = 1721686086620926 := by
  refine ⟨?_, ?_, ?_, ?_⟩ <;> decide

/-- C9: the unit-conversion helpers return exactly the spec's precision seed
values. -/
theorem fraction_seed_values :
    fraction_to_microseconds (U32_MAX - 1) = 999999 ∧
    fraction_to_milliseconds (U32_MAX - 1) = 999 ∧
    fraction_to_picoseconds 1 = 232 := by
  refine ⟨?_, ?_, ?_⟩ <;> decide

theorem toI64_range (x : Nat) : -(2 ^ 63) ≤ toI64 x ∧ toI64 x < 2 ^ 63 := by
  unfold toI64
  split <;> omega

theorem toI64_of_lt (x : Nat) (h : x < 2 ^ 63) : toI64 x = (x : Int) := by
  unfold toI64
  rw [Nat.mod_eq_of_lt (show x < 2 ^ 64 by omega), if_pos h]

theorem i64SaturatingAdd_range (a b : Int) :
    -(2 ^ 63) ≤ i64SaturatingAdd a b ∧ i64SaturatingAdd a b ≤ 2 ^ 63 - 1 := by
  unfold i64SaturatingAdd
  exact ⟨le_max_left _ _, max_le (by norm_num) (min_le_left _ _)⟩

theorem wrapI64_fits (x : Int) (h1 : -(2 ^ 63) ≤ x) (h2 : x < 2 ^ 63) :
    wrapI64 x = x := by
  unfold wrapI64
  omega

theorem sign_cases_int (t : Int) : t.sign = -1 ∨ t.sign = 0 ∨ t.sign = 1 := by
  cases t with
  | ofNat n =>
    cases n with
    | zero => right; left; rfl
    | succ m => right; right; rfl
  | negSucc n => left; rfl

theorem convert_delays_checked_eq (sec fraction u : Nat) (hsec : sec ≤ 2 ^ 32)
    (hfrac : fraction < 2 ^ 32) (hu : u = 1000 ∨ u = 1000000) :
    convert_delays_checked sec fraction u = some (convert_delays sec fraction u)
      ∧ convert_delays sec fraction u < 2 ^ 63 := by
  unfold convert_delays_checked convert_delays U32_MAX
  rcases hu with h | h <;> subst h
  · rw [Nat.mod_eq_of_lt (a := sec * 1000) (b := 2 ^ 64) (by omega),
      Nat.mod_eq_of_lt (a := fraction * 1000) (b := 2 ^ 64) (by omega),
      Nat.mod_eq_of_lt (a := sec * 1000 + fraction * 1000 / 4294967295)
        (b := 2 ^ 64) (by omega)]
    refine ⟨?_, by omega⟩
    rw [if_pos (by omega), if_pos (by omega), if_pos (by omega)]
  · rw [Nat.mod_eq_of_lt (a := sec * 1000000) (b := 2 ^ 64) (by omega),
      Nat.mod_eq_of_lt (a := fraction * 1000000) (b := 2 ^ 64) (by omega),
      Nat.mod_eq_of_lt (a := sec * 1000000 + fraction * 1000000 / 4294967295)
        (b := 2 ^ 64) (by omega)]
    refine ⟨?_, by omega⟩
    rw [if_pos (by omega), if_pos (by omega), if_pos (by omega)]

set_option maxRecDepth 4096 in
/-- C8: for all four timestamps, in either unit, the overflow-checked
variants of `roundtrip_calculate` and `offset_calculate` succeed and agree
with the unchecked functions — no error or overflow branch is reachable. -/
theorem calculate_total (t1 t2 t3 t4 : Nat) (units : Units) :
    roundtrip_calculate_checked t1 t2 t3 t4 units
      = some (roundtrip_calculate t1 t2 t3 t4 units) ∧
    offset_calculate_checked t1 t2 t3 t4 units
      = some (offset_calculate t1 t2 t3 t4 units) := by
  constructor
  · have hdelta : wrappingSub64 t4 t1 - wrappingSub64 t3 t2 < 2 ^ 64 :=
      lt_of_le_of_lt (Nat.sub_le _ _) (wrappingSub64_lt _ _)
    simp only [roundtrip_calculate_checked, roundtrip_calculate,
      land_high_shift _ hdelta, land_frac]
    cases units
    · exact (convert_delays_checked_eq _ _ _ (by omega) (by omega) (Or.inl rfl)).1
    · exact (convert_delays_checked_eq _ _ _ (by omega) (by omega) (Or.inr rfl)).1
  · have ha := toI64_range (wrappingSub64 t2 t1)
    have hb := toI64_range (wrappingSub64 t3 t4)
    simp only [offset_calculate_checked, offset_calculate]
    rw [if_neg (by omega), if_neg (by omega)]
    set theta := i64SaturatingAdd (Int.tdiv (toI64 (wrappingSub64 t2 t1)) 2)
      (Int.tdiv (toI64 (wrappingSub64 t3 t4)) 2) with htheta
    have hrange := i64SaturatingAdd_range (Int.tdiv (toI64 (wrappingSub64 t2 t1)) 2)
      (Int.tdiv (toI64 (wrappingSub64 t3 t4)) 2)
    rw [← htheta] at hrange
    have habs64 : theta.natAbs < 2 ^ 64 := by omega
    simp only [land_high_shift _ habs64, land_frac]
    have hsec2 : theta.natAbs / 2 ^ 32 ≤ 2 ^ 32 := by omega
    have hfrac2 : theta.natAbs % 2 ^ 32 < 2 ^ 32 := by omega
    have hsign := sign_cases_int theta
    cases units
    · obtain ⟨hcde, hlt⟩ := convert_delays_checked_eq (theta.natAbs / 2 ^ 32)
        (theta.natAbs % 2 ^ 32) MSEC_IN_SEC hsec2 hfrac2 (Or.inl rfl)
      simp only [hcde]
      rw [toI64_of_lt _ hlt]
      have hfits : -(2 ^ 63) ≤ (convert_delays (theta.natAbs / 2 ^ 32)
            (theta.natAbs % 2 ^ 32) MSEC_IN_SEC : Int) * theta.sign
          ∧ ((convert_delays (theta.natAbs / 2 ^ 32)
            (theta.natAbs % 2 ^ 32) MSEC_IN_SEC : Int) * theta.sign) < 2 ^ 63 := by
        rcases hsign with h | h | h <;> rw [h] <;> constructor <;> omega
      rw [if_pos hlt, if_pos hfits, wrapI64_fits _ hfits.1 hfits.2]
    · obtain ⟨hcde, hlt⟩ := convert_delays_checked_eq (theta.natAbs / 2 ^ 32)
        (theta.natAbs % 2 ^ 32) USEC_IN_SEC hsec2 hfrac2 (Or.inr rfl)
      simp only [hcde]
      rw [toI64_of_lt _ hlt]
      have hfits : -(2 ^ 63) ≤ (convert_delays (theta.natAbs / 2 ^ 32)
            (theta.natAbs % 2 ^ 32) USEC_IN_SEC : Int) * theta.sign
          ∧ ((convert_delays (theta.natAbs / 2 ^ 32)
            (theta.natAbs % 2 ^ 32) USEC_IN_SEC : Int) * theta.sign) < 2 ^ 63 := by
        rcases hsign with h | h | h <;> rw [h] <;> constructor <;> omega
      rw [if_pos hlt, if_pos hfits, wrapI64_fits _ hfits.1 hfits.2]

/-- Counterexample for C4: at `(T1,T2,T3,T4) = (0,0,0,2^32 - 1)` the code
returns a full second, the claim's formula (fraction divided by `2 ^ 32`)
returns one microsecond less. -/
theorem roundtrip_claim_formula_fails :
    roundtrip_calculate 0 0 0 4294967295 Units.Microseconds = 1000000 ∧
    claimRoundtripFormula 0 0 0 4294967295 = 999999 ∧
    roundtrip_calculate 0 0 0 4294967295 Units.Microseconds
      ≠ claimRoundtripFormula 0 0 0 4294967295 := by
  refine ⟨?_, ?_, ?_⟩ <;> decide

/-- C4 as amended: the fraction part of the round-trip delay is divided by
`u32::MAX = 2 ^ 32 - 1`, not by `2 ^ 32`; the rest of the claim's formula is
as stated, and the result is a `Nat`, hence never negative. -/
theorem roundtrip_calculate_eq_formula (t1 t2 t3 t4 : Nat) :
    roundtrip_calculate t1 t2 t3 t4 Units.Microseconds
      = (wrappingSub64 t4 t1 - wrappingSub64 t3 t2) >>> 32 * 1000000
        + ((wrappingSub64 t4 t1 - wrappingSub64 t3 t2) &&& SECONDS_FRAC_MASK)
          * 1000000 / U32_MAX := by
  have hdelta : wrappingSub64 t4 t1 - wrappingSub64 t3 t2 < 2 ^ 64 :=
    lt_of_le_of_lt (Nat.sub_le _ _) (wrappingSub64_lt _ _)
  simp only [roundtrip_calculate, convert_delays, USEC_IN_SEC,
    land_high_shift _ hdelta, land_frac, Nat.shiftRight_eq_div_pow]
  unfold U32_MAX
  rw [Nat.mod_eq_of_lt (a := (wrappingSub64 t4 t1 - wrappingSub64 t3 t2) / 2 ^ 32 * 1000000)
      (b := 2 ^ 64) (by omega),
    Nat.mod_eq_of_lt (a := (wrappingSub64 t4 t1 - wrappingSub64 t3 t2) % 2 ^ 32 * 1000000)
      (b := 2 ^ 64) (by omega)]
  exact Nat.mod_eq_of_lt (by omega)

/-- C5: `NtpResult::new` carries a full fraction into the seconds (with the
`u32` increment wrapping modulo `2 ^ 32`) and stores any smaller fraction and
the seconds unchanged. -/
theorem ntp_result_new_normalization (s f r : Nat) (o : Int) (st : Nat)
    (p : Int) (hs : s < 2 ^ 32) (hf : f < U32_MAX) :
    (NtpResult.new s U32_MAX r o st p).seconds_fraction = 0 ∧
    (NtpResult.new s U32_MAX r o st p).seconds = (s + 1) % 2 ^ 32 ∧
    (NtpResult.new s f r o st p).seconds = s ∧
    (NtpResult.new s f r o st p).seconds_fraction = f := by
  unfold NtpResult.new U32_MAX at *
  refine ⟨?_, ?_, ?_, ?_⟩ <;> simp only [] <;> omega

/-- Witness for C5 at `s = 7`, `f = 9`. -/
theorem ntp_result_new_normalization_witness :
    7 < 2 ^ 32 ∧ 9 < U32_MAX ∧
    ((NtpResult.new 7 U32_MAX 1 2 3 4).seconds_fraction = 0 ∧
     (NtpResult.new 7 U32_MAX 1 2 3 4).seconds = (7 + 1) % 2 ^ 32 ∧
     (NtpResult.new 7 9 1 2 3 4).seconds = 7 ∧
     (NtpResult.new 7 9 1 2 3 4).seconds_fraction = 9) :=
  ⟨by decide, by decide,
    ntp_result_new_normalization 7 9 1 2 3 4 (by decide) (by decide)⟩

/-- Counterexample for C6: at the full fraction `u32::MAX` the code returns
1000 milliseconds, the claim's formula `f * 1000 / 2 ^ 32` returns 999. -/
theorem fraction_conversion_claim_fails :
    fraction_to_milliseconds U32_MAX ≠ U32_MAX * 1000 / 2 ^ 32 := by decide

/-- C6 as amended: each helper computes `f * UNIT / (2 ^ 32 - 1)` — the
divisor is `u32::MAX`, not `2 ^ 32` — in exact widened integer arithmetic. -/
theorem fraction_conversion_divisor (f : Nat) (hf : f < 2 ^ 32) :
    fraction_to_milliseconds f = f * 1000 / U32_MAX ∧
    fraction_to_microseconds f = f * 1000000 / U32_MAX ∧
    fraction_to_nanoseconds f = f * 1000000000 / U32_MAX ∧
    fraction_to_picoseconds f = f * 1000000000000 / U32_MAX := by
  unfold fraction_to_milliseconds fraction_to_microseconds
    fraction_to_nanoseconds fraction_to_picoseconds
    MSEC_IN_SEC USEC_IN_SEC NSEC_IN_SEC PSEC_IN_SEC U32_MAX
  refine ⟨?_, ?_, ?_, ?_⟩
  · rw [Nat.mod_eq_of_lt (a := f * 1000) (b := 2 ^ 64) (by omega)]
    exact Nat.mod_eq_of_lt (by omega)
  · rw [Nat.mod_eq_of_lt (a := f * 1000000) (b := 2 ^ 64) (by omega)]
    exact Nat.mod_eq_of_lt (by omega)
  · rw [Nat.mod_eq_of_lt (a := f * 1000000000) (b := 2 ^ 64) (by omega)]
    exact Nat.mod_eq_of_lt (by omega)
  · rw [Nat.mod_eq_of_lt (a := f * 1000000000000) (b := 2 ^ 128) (by omega)]
    exact Nat.mod_eq_of_lt (by omega)

/-- Witness for C6 (amended) at `f = 123456789`. -/
theorem fraction_conversion_divisor_witness :
    123456789 < 2 ^ 32 ∧
    (fraction_to_milliseconds 123456789 = 123456789 * 1000 / U32_MAX ∧
     fraction_to_microseconds 123456789 = 123456789 * 1000000 / U32_MAX ∧
     fraction_to_nanoseconds 123456789 = 123456789 * 1000000000 / U32_MAX ∧
     fraction_to_picoseconds 123456789 = 123456789 * 1000000000000 / U32_MAX) :=
  ⟨by decide, fraction_conversion_divisor 123456789 (by decide)⟩

/-- C7: the locally constructed NTP timestamp differs from the spec formula
(evaluated modulo `2 ^ 64`) by at most one in the lowest bit. -/
theorem get_ntp_timestamp_close_to_spec (sec_unix subsec_us : Nat)
    (hus : subsec_us ≤ 999999) :
    specToNtp sec_unix subsec_us = get_ntp_timestamp sec_unix subsec_us ∨
    specToNtp sec_unix subsec_us
      = (get_ntp_timestamp sec_unix subsec_us + 1) % 2 ^ 64 := by
  unfold specToNtp get_ntp_timestamp NTP_TIMESTAMP_DELTA U32_MAX USEC_IN_SEC
  rw [Nat.mod_eq_of_lt (a := subsec_us * 4294967295) (b := 2 ^ 64) (by omega)]
  have hab : subsec_us * 2 ^ 32 / 1000000 = subsec_us * 4294967295 / 1000000
      ∨ subsec_us * 2 ^ 32 / 1000000 = subsec_us * 4294967295 / 1000000 + 1 := by
    omega
  rcases hab with h | h <;> rw [h]
  · left; rfl
  · right; omega

/-- Witness for C7 at `sec_unix = 1726000000`, `subsec_us = 345678`. -/
theorem get_ntp_timestamp_close_to_spec_witness :
    345678 ≤ 999999 ∧
    (specToNtp 1726000000 345678 = get_ntp_timestamp 1726000000 345678 ∨
     specToNtp 1726000000 345678
       = (get_ntp_timestamp 1726000000 345678 + 1) % 2 ^ 64) :=
  ⟨by decide, get_ntp_timestamp_close_to_spec 1726000000 345678 (by decide)⟩

/-- C10: each helper's result never exceeds one whole unit, with equality
exactly at `f = u32::MAX`; strictly below one unit for every smaller `f`. -/
theorem fraction_conversion_bounds (f : Nat) (hf : f < 2 ^ 32) :
    (fraction_to_milliseconds f ≤ 1000
      ∧ (fraction_to_milliseconds f = 1000 ↔ f = U32_MAX)) ∧
    (fraction_to_microseconds f ≤ 1000000
      ∧ (fraction_to_microseconds f = 1000000 ↔ f = U32_MAX)) ∧
    (fraction_to_nanoseconds f ≤ 1000000000
      ∧ (fraction_to_nanoseconds f = 1000000000 ↔ f = U32_MAX)) ∧
    (fraction_to_picoseconds f ≤ 1000000000000
      ∧ (fraction_to_picoseconds f = 1000000000000 ↔ f = U32_MAX)) ∧
    (f < U32_MAX →
      fraction_to_milliseconds f < 1000 ∧ fraction_to_microseconds f < 1000000
        ∧ fraction_to_nanoseconds f < 1000000000
        ∧ fraction_to_picoseconds f < 1000000000000) := by
  unfold fraction_to_milliseconds fraction_to_microseconds
    fraction_to_nanoseconds fraction_to_picoseconds
    MSEC_IN_SEC USEC_IN_SEC NSEC_IN_SEC PSEC_IN_SEC U32_MAX
  rw [Nat.mod_eq_of_lt (a := f * 1000) (b := 2 ^ 64) (by omega),
    Nat.mod_eq_of_lt (a := f * 1000000) (b := 2 ^ 64) (by omega),
    Nat.mod_eq_of_lt (a := f * 1000000000) (b := 2 ^ 64) (by omega),
    Nat.mod_eq_of_lt (a := f * 1000000000000) (b := 2 ^ 128) (by omega),
    Nat.mod_eq_of_lt (a := f * 1000 / 4294967295) (b := 2 ^ 32) (by omega),
    Nat.mod_eq_of_lt (a := f * 1000000 / 4294967295) (b := 2 ^ 32) (by omega),
    Nat.mod_eq_of_lt (a := f * 1000000000 / 4294967295) (b := 2 ^ 32) (by omega),
    Nat.mod_eq_of_lt (a := f * 1000000000000 / 4294967295) (b := 2 ^ 64) (by omega)]
  omega

/-- Witness for C10 at the full fraction `f = u32::MAX`. -/
theorem fraction_conversion_bounds_witness :
    4294967295 < 2 ^ 32 ∧
    ((fraction_to_milliseconds 4294967295 ≤ 1000
       ∧ (fraction_to_milliseconds 4294967295 = 1000 ↔ 4294967295 = U32_MAX)) ∧
     (fraction_to_microseconds 4294967295 ≤ 1000000
       ∧ (fraction_to_microseconds 4294967295 = 1000000 ↔ 4294967295 = U32_MAX)) ∧
     (fraction_to_nanoseconds 4294967295 ≤ 1000000000
       ∧ (fraction_to_nanoseconds 4294967295 = 1000000000 ↔ 4294967295 = U32_MAX)) ∧
     (fraction_to_picoseconds 4294967295 ≤ 1000000000000
       ∧ (fraction_to_picoseconds 4294967295 = 1000000000000 ↔ 4294967295 = U32_MAX)) ∧
     (4294967295 < U32_MAX →
       fraction_to_milliseconds 4294967295 < 1000
         ∧ fraction_to_microseconds 4294967295 < 1000000
         ∧ fraction_to_nanoseconds 4294967295 < 1000000000
         ∧ fraction_to_picoseconds 4294967295 < 1000000000000)) :=
  ⟨by decide, fraction_conversion_bounds 4294967295 (by decide)⟩

/-- C1: `sntp_process_response` / `process_response` return exactly the error
of the first failing validation check in the spec's order — address mismatch,
payload size, origin timestamp, mode, leap indicator, version, stratum — and
succeed exactly when no check fails. -/
theorem validation_order (dest src response : Nat)
    (send_req_result : SendRequestResult) (resp : List Nat)
    (recv_timestamp : Nat) (e : Error) :
    sntp_process_response dest src response send_req_result resp recv_timestamp
        = Except.error e
      ↔ firstFailedCheck (validationChecks dest src response send_req_result resp)
        = some e := by
  simp only [sntp_process_response, process_response, validationChecks,
    firstFailedCheck]
  by_cases h1 : dest = src
  · rw [if_neg (not_not_intro h1), decide_eq_false (not_not_intro h1)]
    by_cases h2 : response = 48
    · rw [if_neg (not_not_intro h2), decide_eq_false (not_not_intro h2)]
      by_cases h3 : send_req_result.originate_timestamp
          = (convert_from_network (packetFromRaw resp)).origin_timestamp
      · rw [if_neg (not_not_intro h3), decide_eq_false (not_not_intro h3.symm)]
        by_cases h4 :
            shifter (convert_from_network (packetFromRaw resp)).li_vn_mode
                MODE_MASK MODE_SHIFT = 4
              ∨ shifter (convert_from_network (packetFromRaw resp)).li_vn_mode
                MODE_MASK MODE_SHIFT = 5
        · rw [if_neg (by rcases h4 with h | h <;> simp [h]),
            decide_eq_false (not_not_intro h4)]
          by_cases h5 :
              shifter (convert_from_network (packetFromRaw resp)).li_vn_mode
                LI_MASK LI_SHIFT > 3
          · rw [if_pos h5, decide_eq_true h5]
            simp [List.find?]
          · rw [if_neg h5, decide_eq_false h5]
            by_cases h6 : shifter send_req_result.version VERSION_MASK VERSION_SHIFT
                = shifter (convert_from_network (packetFromRaw resp)).li_vn_mode
                  VERSION_MASK VERSION_SHIFT
            · rw [if_neg (not_not_intro h6), decide_eq_false (not_not_intro h6.symm)]
              by_cases h7 : (convert_from_network (packetFromRaw resp)).stratum = 0
              · rw [if_pos h7, decide_eq_true h7]
                simp [List.find?]
              · rw [if_neg h7, decide_eq_false h7]
                simp [List.find?]
            · rw [if_pos h6, decide_eq_true (Ne.symm h6)]
              simp [List.find?]
        · rw [if_pos (not_or.mp h4), decide_eq_true h4]
          simp [List.find?]
      · rw [if_pos h3, decide_eq_true (Ne.symm h3)]
        simp [List.find?]
    · rw [if_pos h2, decide_eq_true h2]
      simp [List.find?]
  · rw [if_pos h1, decide_eq_true h1]
    simp [List.find?]

end Sntpc
